import Mathlib

/-!
Verification of the RESTCONF gateway's request-translation core against its
source: compliance negotiation (`server.go`), module/path resolution
(`server.go`), the CRUD/RPC dispatch in the browser handler, action
input/output enveloping, and the SSE notification streamer
(`browser_handler` unit).  Go functions are shallowly embedded as
executable Lean definitions; strings and booleans mirror the Go values.
-/

namespace Restconf

/-- ComplianceOptions from the repository: four boolean knobs read by the
dispatcher, the envelope codecs and the streamer. -/
structure ComplianceOptions where
  allowRpcUnderData : Bool
  disableActionWrapper : Bool
  disableNotificationWrapper : Bool
  qualifyNamespaceDisabled : Bool
deriving DecidableEq, Repr

/-- Modelled from the spec: the `Strict` preset ("all protections on, full
IETF envelopes") — the struct literal itself is defined outside src. -/
def Strict : ComplianceOptions :=
  { allowRpcUnderData := false
    disableActionWrapper := false
    disableNotificationWrapper := false
    qualifyNamespaceDisabled := false }

/-- Modelled from the spec: the `Simplified` preset ("envelopes and
namespace qualification relaxed", rpc allowed under data) — the struct
literal itself is defined outside src. -/
def Simplified : ComplianceOptions :=
  { allowRpcUnderData := true
    disableActionWrapper := true
    disableNotificationWrapper := true
    qualifyNamespaceDisabled := true }

def YangDataJsonMimeType1 : String := "application/yang-data+json"
def YangDataJsonMimeType2 : String := "application/yang.data+json"
def YangDataXmlMimeType1 : String := "application/yang-data+xml"
def YangDataXmlMimeType2 : String := "application/yang.data+xml"
def TextStreamMimeType : String := "text/event-stream"
def PlainJsonMimeType : String := "application/json"

/-- The request facts `determineCompliance` reads: `Content-Type` and
`Accept` header values (empty string when absent, as `Header.Get` returns)
and whether the URL query carries the `simplified` parameter. -/
structure HttpRequest where
  contentType : String
  accept : String
  hasSimplifiedParam : Bool
deriving DecidableEq, Repr

/-- Server.determineCompliance from `server.go`: always-strict flag, then
the simplified query parameter, then exact-match sniffing of the
Content-Type and Accept headers. -/
def determineCompliance (onlyStrictCompliance : Bool) (r : HttpRequest) :
    ComplianceOptions :=
  if onlyStrictCompliance then Strict
  else if r.hasSimplifiedParam then Simplified
  else
    let contentType := r.contentType
    let acceptType := r.accept
    if contentType == YangDataJsonMimeType1 || contentType == YangDataJsonMimeType2 ||
        contentType == YangDataXmlMimeType1 || contentType == YangDataXmlMimeType2 ||
        acceptType == YangDataJsonMimeType1 || acceptType == YangDataJsonMimeType2 ||
        acceptType == YangDataXmlMimeType1 || acceptType == YangDataXmlMimeType2 then
      Strict
    else if acceptType == TextStreamMimeType then Strict
    else Simplified

/-- Names one of the YANG-data JSON or XML media types (the claim's
"YANG-data JSON or XML media types"). -/
def namesYangDataMediaType (s : String) : Prop :=
  s = YangDataJsonMimeType1 ∨ s = YangDataJsonMimeType2 ∨
  s = YangDataXmlMimeType1 ∨ s = YangDataXmlMimeType2

instance (s : String) : Decidable (namesYangDataMediaType s) := by
  unfold namesYangDataMediaType
  infer_instance

/-- Written from the claim's words, for comparison with the source
function: first-match order (always-strict flag, simplified query
parameter, YANG-data media type in Content-Type or Accept, event-stream
Accept, otherwise Simplified). -/
def complianceClaimOrder (alwaysStrict : Bool) (r : HttpRequest) :
    ComplianceOptions :=
  if alwaysStrict then Strict
  else if r.hasSimplifiedParam then Simplified
  else if namesYangDataMediaType r.contentType ∨ namesYangDataMediaType r.accept then
    Strict
  else if r.accept = TextStreamMimeType then Strict
  else Simplified

/-- Modelled from the spec: the segment splitter `shift` with the `:`
delimiter (the helper itself is not under src): scan the first path
segment; a `:` found before any `/` splits it into module characters and
the remaining path; reaching `/` or the end first means no module. -/
def splitColonSeg : List Char → Option (List Char × List Char)
  | [] => none
  | c :: cs =>
    if c = ':' then some ([], cs)
    else if c = '/' then none
    else
      match splitColonSeg cs with
      | some (m, r) => some (c :: m, r)
      | none => none

/-- Module/path pair recovered from a data path: the empty module encodes
Go's `module == ""` no-module case. -/
def shiftModule (path : List Char) : List Char × List Char :=
  match splitColonSeg path with
  | some (m, r) => (m, r)
  | none => ([], path)

/-- Error classes of the spec's §7 taxonomy that the resolver can
produce. -/
inductive ErrClass where
  | badAddress
  | notFound
  | internal
deriving DecidableEq, Repr

/-- Modelled from the spec: the shared error responder's status mapping
(`handleErr` is not under src): address errors map to 400, not-found
errors to 404, anything else to 500. -/
def errStatus : ErrClass → Nat
  | .badAddress => 400
  | .notFound => 404
  | .internal => 500

/-- Server.shiftBrowserHandler from `server.go`: split the module off the
path; a nonempty module with a known browser yields the handler and the
remaining path; otherwise the request is rejected with the error wrapping
the not-found sentinel ("no module found in path"). `knownModules`
abstracts which modules the device has browsers for. -/
def shiftBrowserHandler (knownModules : List (List Char)) (orig : List Char) :
    Except ErrClass (List Char × List Char) :=
  let mp := shiftModule orig
  if mp.1 ≠ [] ∧ mp.1 ∈ knownModules then .ok (mp.1, mp.2)
  else .error .notFound

/-- Event timestamp fields as Go's time.Time exposes them to Format;
offsetMinutes is the zone offset east of UTC in minutes. -/
structure EventTime where
  year : Nat
  month : Nat
  day : Nat
  hour : Nat
  minute : Nat
  second : Nat
  offsetMinutes : Int
deriving DecidableEq, Repr

/-- Two-digit zero-padded decimal field of the Go layout; time.Time never
feeds values of three or more digits into these positions. -/
def pad2 (n : Nat) : List Char :=
  [Nat.digitChar (n / 10 % 10), Nat.digitChar (n % 10)]

/-- Four-digit zero-padded year of the Go layout. -/
def pad4 (n : Nat) : List Char :=
  [Nat.digitChar (n / 1000 % 10), Nat.digitChar (n / 100 % 10),
   Nat.digitChar (n / 10 % 10), Nat.digitChar (n % 10)]

/-- The `-07:00` layout element: numeric zone offset, sign then
zero-padded hours and minutes. -/
def offsetChars (m : Int) : List Char :=
  (if m < 0 then '-' else '+') ::
    (pad2 (m.natAbs / 60) ++ ':' :: pad2 (m.natAbs % 60))

/-- EventTime.Format applied to EventTimeFormat =
"2006-01-02T15:04:05-07:00" (`browser_handler` unit): RFC3339 with a
numeric UTC offset and no fractional seconds. -/
def formatEventTime (t : EventTime) : String :=
  String.mk (pad4 t.year ++ '-' :: pad2 t.month ++ '-' :: pad2 t.day ++
    'T' :: pad2 t.hour ++ ':' :: pad2 t.minute ++ ':' :: pad2 t.second ++
    offsetChars t.offsetMinutes)

/-- Checks the RFC3339-with-numeric-offset shape
`DDDD-DD-DDTDD:DD:DD(+|-)DD:DD` character by character. -/
def isRFC3339NumOffset (s : String) : Bool :=
  match s.toList with
  | [y1, y2, y3, y4, k1, m1, m2, k2, d1, d2, k3, h1, h2, k4, i1, i2, k5,
     s1, s2, sg, o1, o2, k6, p1, p2] =>
    y1.isDigit && y2.isDigit && y3.isDigit && y4.isDigit &&
    m1.isDigit && m2.isDigit && d1.isDigit && d2.isDigit &&
    h1.isDigit && h2.isDigit && i1.isDigit && i2.isDigit &&
    s1.isDigit && s2.isDigit && o1.isDigit && o2.isDigit &&
    p1.isDigit && p2.isDigit &&
    (k1 == '-') && (k2 == '-') && (k3 == 'T') && (k4 == ':') && (k5 == ':') &&
    (k6 == ':') && (sg == '+' || sg == '-')
  | _ => false

/-- One `data:` record as the notification callback builds it in its
per-event buffer: `data: `, then unless wrapping is disabled the IETF
wrapper opening with the formatted event time, then the encoded payload,
then the wrapper closing, then the blank-line terminator. -/
def sseRecord (c : ComplianceOptions) (etime : String) (enc : String) : String :=
  let buf := "data: "
  let buf :=
    if !c.disableNotificationWrapper then
      buf ++ "\x7b\"ietf-restconf:notification\":\x7b\"eventTime\":\"" ++
        etime ++ "\",\"event\":"
    else buf
  let buf := buf ++ enc
  let buf := if !c.disableNotificationWrapper then buf ++ "\x7d\x7d" else buf
  buf ++ "\n\n"

/-- Stream-side error classes sent on the errOnSend channel. -/
inductive StreamErr where
  | encodeFail
  | writeFail
  | recovered
deriving DecidableEq, Repr

/-- One delivered notification as the callback sees it: its timestamp, the
result of encoding its payload through the JSON writer (`none` when the
encode fails), and whether the connection write would succeed. -/
structure StreamEvent where
  time : EventTime
  enc : Option String
  writeOk : Bool
deriving DecidableEq, Repr

/-- Connection-side state of one subscription: the complete records
written to the connection and the errors queued on the bounded errOnSend
channel. -/
structure StreamState where
  written : List String
  errCh : List StreamErr
deriving DecidableEq, Repr

/-- Capacity of errOnSend (`make(chan error, 20)`). -/
def errChCap : Nat := 20

/-- Send on the bounded error channel; on a full channel the diagnostic is
lost (the spec's reading of the bounded send — the claims never fill the
channel). -/
def sendErr (st : StreamState) (e : StreamErr) : StreamState :=
  if st.errCh.length < errChCap then { st with errCh := st.errCh ++ [e] } else st

/-- The notification callback registered with sel.Notifications: build the
per-event buffer; an encode failure sends on the error channel and returns
without writing; otherwise the buffer is written to the connection in one
call, a write failure being sent on the same channel. -/
def notifyCallback (c : ComplianceOptions) (st : StreamState)
    (n : StreamEvent) : StreamState :=
  match n.enc with
  | none => sendErr st .encodeFail
  | some payload =>
    let buf := sseRecord c (formatEventTime n.time) payload
    if n.writeOk then { st with written := st.written ++ [buf] }
    else sendErr st .writeFail

/-- The streaming goroutine's select loop under the schedule where it runs
between callback invocations: deliver events in order; as soon as an error
is available on the error channel the select fires and the subscription
terminates (the returned Bool), leaving later events undelivered. -/
def notifySelectLoop (c : ComplianceOptions) :
    List StreamEvent → StreamState → StreamState × Bool
  | [], st => (st, false)
  | n :: rest, st =>
    let st' := notifyCallback c st n
    if st'.errCh.isEmpty then notifySelectLoop c rest st'
    else (st', true)

/-- A concrete timestamp (2024-05-17 13:04:09 at offset -07:00) for
witnesses and counterexamples. -/
def sampleTime : EventTime :=
  { year := 2024, month := 5, day := 17, hour := 13, minute := 4,
    second := 9, offsetMinutes := -420 }

/-- Generic decoded value tree: the `map[string]interface\x7b\x7d` shape
the action input decoders produce. -/
inductive Json where
  | null
  | boolean (b : Bool)
  | num (n : Int)
  | str (s : String)
  | arr (xs : List Json)
  | obj (fields : List (String × Json))

/-- Input-side errors readInput can return. -/
inductive InErr where
  | decodeFail
  | xmlParseFail
  | missingWrapper (key : String)

/-- The node readInput hands to sel.Action: a multipart form node, the
bare JSON reader over the whole body, or the values node over the
unwrapped payload object. -/
inductive InputNode where
  | fromForm
  | bareBody
  | values (payload : Json)

/-- The request body as the decoders see it: whether the request is a
multipart form, the body decoded as a JSON object (`none` when malformed),
and the body parsed as XML into its root key and element map (`none` when
malformed). -/
structure ReqBody where
  multipart : Bool
  jsonDecoded : Option (List (String × Json))
  xmlParsed : Option (String × List (String × Json))

mutual
/-- removeAttributesFromXmlMap from the `browser_handler` unit: drop every
key containing a hyphen, recursing into kept values that are maps (arrays
and scalars are left alone). -/
def stripHyphenKeys : Json → Json
  | .obj fields => .obj (stripFields fields)
  | j => j

def stripFields : List (String × Json) → List (String × Json)
  | [] => []
  | (k, v) :: rest =>
    if k.toList.contains '-' then stripFields rest
    else (k, stripHyphenKeys v) :: stripFields rest
end

/-- The shared wrapper lookup at the end of readInput:
`payload, found = vals[key].(map[string]interface\x7b\x7d)` — the key must
be present and its value must be an object, else the missing-wrapper error
naming the key. -/
def lookupWrapper (vals : List (String × Json)) (key : String) :
    Except InErr InputNode :=
  match vals.lookup key with
  | some (.obj payload) => .ok (.values (.obj payload))
  | _ => .error (.missingWrapper key)

/-- readInput from the `browser_handler` unit: multipart forms go to the
form decoder; with the action wrapper disabled the body is read bare; a
YANG-data JSON content type JSON-decodes the body with wrapper key
`<module>:input`; a YANG-data XML content type XML-parses the body with
the root element as key after attribute stripping; any other content type
leaves the value map empty and the key empty, and the common wrapper
lookup then fails. -/
def readInput (c : ComplianceOptions) (contentType : String)
    (body : ReqBody) (moduleIdent : String) : Except InErr InputNode :=
  if body.multipart then .ok .fromForm
  else if c.disableActionWrapper then .ok .bareBody
  else if contentType == YangDataJsonMimeType1 ||
      contentType == YangDataJsonMimeType2 then
    match body.jsonDecoded with
    | none => .error .decodeFail
    | some vals => lookupWrapper vals (moduleIdent ++ ":input")
  else if contentType == YangDataXmlMimeType1 ||
      contentType == YangDataXmlMimeType2 then
    match body.xmlParsed with
    | none => .error .xmlParseFail
    | some (root, m) => lookupWrapper (stripFields m) root
  else lookupWrapper [] ""

/-- The two payload writers. -/
inductive Codec where
  | json
  | xml
deriving DecidableEq, Repr

/-- What sendActionOutput puts on the wire around the payload: the bytes
written before the payload encoder runs, the encoder node handed to
InsertInto (`none` models the nil node variable, left unassigned when the
action wrapper is disabled), and the bytes written after. -/
structure OutWire where
  opening : String
  enc : Option Codec
  closing : String
deriving DecidableEq, Repr

/-- sendActionOutput from the `browser_handler` unit: with the wrapper
enabled, a non-xml negotiated content type writes the JSON output envelope
around the JSON writer, an xml-containing one uses the XML writer bare;
with the wrapper disabled the node variable is never assigned and
InsertInto receives it nil. -/
def sendActionOutput (c : ComplianceOptions) (contentTypeHdr : String)
    (moduleIdent : String) : OutWire :=
  if !c.disableActionWrapper then
    if !(decide (String.toList "xml" <:+: contentTypeHdr.toList)) then
      { opening := "\x7b\"" ++ moduleIdent ++ ":output\":",
        enc := some .json, closing := "\x7d" }
    else { opening := "", enc := some .xml, closing := "" }
  else { opening := "", enc := none, closing := "" }

def endpointData : Nat := 0
def endpointOperations : Nat := 1
def endpointStreams : Nat := 2
def endpointSchema : Nat := 3

/-- Resolved-node facts the dispatcher branches on. -/
structure Sel where
  isNil : Bool
  lastErr : Option ErrClass
  metaIsAction : Bool
  metaIsNotif : Bool
  pathLen : Nat
  hasInput : Bool

/-- Tree operations the dispatcher can perform through the Selection. -/
inductive TreeOp where
  | del
  | read
  | stream
  | upsert
  | replace
  | insert
  | invoke
deriving DecidableEq, Repr

/-- An error routed to the shared error responder mid-dispatch. -/
inductive HandledErr where
  | resolve (e : ErrClass)
  | input (e : InErr)

/-- Observable outcome of one dispatched request: the explicit http.Error
calls in order, the tree operations performed in order, and any error
routed to the shared error responder. -/
structure Outcome where
  httpErrors : List (Nat × String)
  ops : List TreeOp
  handled : Option HandledErr

def opsOnlyMsg : String :=
  "\x7b+restconf\x7d/operations is only intended for rpcs"

def rpcsUnderDataMsg : String :=
  "rpcs are located at \x7b+restconf\x7d/operations not \x7b+restconf\x7d/data"

/-- The method switch of browserHandler.ServeHTTP: each verb's tree
operation, the action path for POST on an rpc node (input decode feeding
sel.Action), and 405 for unknown verbs. Response encoding of GET and of
action output is modeled separately (jsonWtr / sendActionOutput). -/
def methodSwitch (c : ComplianceOptions) (method : String) (sel : Sel)
    (contentType : String) (body : ReqBody) (moduleIdent : String) :
    List TreeOp × List (Nat × String) × Option HandledErr :=
  if method == "DELETE" then ([.del], [], none)
  else if method == "GET" then
    if sel.metaIsNotif then ([.stream], [], none) else ([.read], [], none)
  else if method == "PATCH" then ([.upsert], [], none)
  else if method == "PUT" then ([.replace], [], none)
  else if method == "POST" then
    if sel.metaIsAction then
      if sel.hasInput then
        match readInput c contentType body moduleIdent with
        | .error e => ([], [], some (.input e))
        | .ok _ => ([.invoke], [], none)
      else ([.invoke], [], none)
    else ([.insert], [], none)
  else if method == "OPTIONS" then ([], [], none)
  else ([], [(405, "Method Not Allowed")], none)

/-- browserHandler.ServeHTTP's dispatch (part_000): resolution error and
nil selection short-circuit; the operations-endpoint misuse writes 400 but
does NOT return, so the method switch still runs; the rpc-under-data
rejection at path depth ≤ 2 writes 400 and returns. -/
def serveBrowser (c : ComplianceOptions) (endpointId : Nat) (method : String)
    (sel : Sel) (contentType : String) (body : ReqBody)
    (moduleIdent : String) : Outcome :=
  match sel.lastErr with
  | some e => { httpErrors := [], ops := [], handled := some (.resolve e) }
  | none =>
    if sel.isNil then
      { httpErrors := [(404, "Not Found")], ops := [], handled := none }
    else
      let isRpcOrAction := method == "POST" && sel.metaIsAction
      if !isRpcOrAction && endpointId == endpointOperations then
        let r := methodSwitch c method sel contentType body moduleIdent
        { httpErrors := (400, opsOnlyMsg) :: r.2.1, ops := r.1,
          handled := r.2.2 }
      else if isRpcOrAction && !c.allowRpcUnderData &&
          endpointId == endpointData && !(decide (sel.pathLen > 2)) then
        { httpErrors := [(400, rpcsUnderDataMsg)], ops := [], handled := none }
      else
        let r := methodSwitch c method sel contentType body moduleIdent
        { httpErrors := r.2.1, ops := r.1, handled := r.2.2 }

/-- A body carrying nothing decodable, for concrete dispatch outcomes. -/
def emptyBody : ReqBody :=
  { multipart := false, jsonDecoded := none, xmlParsed := none }

end Restconf

namespace Restconf

/-- C2: the negotiated compliance follows exactly the claimed first-match
order: always-strict flag forces Strict; else the simplified query
parameter forces Simplified; else a YANG-data JSON/XML media type in
Content-Type or Accept gives Strict; else an event-stream Accept gives
Strict; otherwise Simplified. -/
theorem determineCompliance_follows_claim_order
    (flag : Bool) (r : HttpRequest) :
    determineCompliance flag r = complianceClaimOrder flag r := by
  unfold determineCompliance complianceClaimOrder
  by_cases hf : flag = true
  · simp [hf]
  · simp only [Bool.not_eq_true] at hf
    by_cases hq : r.hasSimplifiedParam = true
    · simp [hf, hq]
    · simp only [Bool.not_eq_true] at hq
      simp only [hf, hq, if_false, Bool.false_eq_true]
      by_cases hm : namesYangDataMediaType r.contentType ∨
          namesYangDataMediaType r.accept
      · have : (r.contentType == YangDataJsonMimeType1 ||
            r.contentType == YangDataJsonMimeType2 ||
            r.contentType == YangDataXmlMimeType1 ||
            r.contentType == YangDataXmlMimeType2 ||
            r.accept == YangDataJsonMimeType1 ||
            r.accept == YangDataJsonMimeType2 ||
            r.accept == YangDataXmlMimeType1 ||
            r.accept == YangDataXmlMimeType2) = true := by
          rcases hm with hm | hm <;>
            rcases hm with h | h | h | h <;> simp [h]
        simp [this, hm]
      · have : (r.contentType == YangDataJsonMimeType1 ||
            r.contentType == YangDataJsonMimeType2 ||
            r.contentType == YangDataXmlMimeType1 ||
            r.contentType == YangDataXmlMimeType2 ||
            r.accept == YangDataJsonMimeType1 ||
            r.accept == YangDataJsonMimeType2 ||
            r.accept == YangDataXmlMimeType1 ||
            r.accept == YangDataXmlMimeType2) = false := by
          push_neg at hm
          obtain ⟨h1, h2⟩ := hm
          unfold namesYangDataMediaType at h1 h2
          push_neg at h1 h2
          simp [h1.1, h1.2.1, h1.2.2.1, h1.2.2.2, h2.1, h2.2.1, h2.2.2.1, h2.2.2.2]
        simp [this, hm]

/-- C8 counterexample: a request whose Content-Type is the YANG-data JSON
media type but whose query carries the simplified parameter negotiates
Simplified, not Strict — the query flag is checked before the headers, so
"Strict regardless of any other query parameter" fails. -/
theorem yangJson_overridden_by_simplified_param :
    determineCompliance false
        { contentType := YangDataJsonMimeType1
          accept := ""
          hasSimplifiedParam := true } = Simplified ∧
      Simplified ≠ Strict := by
  constructor
  · rfl
  · decide

/-- C8 (amended): provided the simplified query parameter is absent, a
YANG-data JSON media type in Content-Type or Accept negotiates Strict for
any always-strict flag and any other header values; and with the
always-strict flag off, a request with none of the relevant headers or
query flags negotiates Simplified. -/
theorem yangJson_strict_when_param_absent (flag : Bool) (r : HttpRequest) :
    (r.hasSimplifiedParam = false →
      (r.contentType = YangDataJsonMimeType1 ∨ r.contentType = YangDataJsonMimeType2 ∨
       r.accept = YangDataJsonMimeType1 ∨ r.accept = YangDataJsonMimeType2) →
      determineCompliance flag r = Strict) ∧
    (flag = false → r.hasSimplifiedParam = false →
      ¬ namesYangDataMediaType r.contentType → ¬ namesYangDataMediaType r.accept →
      r.accept ≠ TextStreamMimeType →
      determineCompliance flag r = Simplified) := by
  constructor
  · intro hq hj
    unfold determineCompliance
    by_cases hf : flag = true
    · simp [hf]
    · simp only [Bool.not_eq_true] at hf
      have : (r.contentType == YangDataJsonMimeType1 ||
          r.contentType == YangDataJsonMimeType2 ||
          r.contentType == YangDataXmlMimeType1 ||
          r.contentType == YangDataXmlMimeType2 ||
          r.accept == YangDataJsonMimeType1 ||
          r.accept == YangDataJsonMimeType2 ||
          r.accept == YangDataXmlMimeType1 ||
          r.accept == YangDataXmlMimeType2) = true := by
        rcases hj with h | h | h | h <;> simp [h]
      simp [hf, hq, this]
  · intro hf hq hct hacc hstream
    unfold determineCompliance
    unfold namesYangDataMediaType at hct hacc
    push_neg at hct hacc
    simp [hf, hq, hct.1, hct.2.1, hct.2.2.1, hct.2.2.2,
      hacc.1, hacc.2.1, hacc.2.2.1, hacc.2.2.2, hstream]

/-- C8 amended witness: with the parameter absent a YANG-data JSON
Content-Type yields Strict, and with no relevant header at all the result
is Simplified. -/
theorem yangJson_strict_when_param_absent_witness :
    determineCompliance false
        { contentType := YangDataJsonMimeType1, accept := "",
          hasSimplifiedParam := false } = Strict ∧
      determineCompliance false
        { contentType := "", accept := "", hasSimplifiedParam := false } =
        Simplified := by
  constructor
  · exact (yangJson_strict_when_param_absent false _).1 rfl (Or.inl rfl)
  · exact (yangJson_strict_when_param_absent false _).2 rfl rfl
      (by decide) (by decide) (by decide)

/-- C9: media-type recognition is exact string equality on the whole
header value: whenever neither header is literally one of the four
YANG-data media types and Accept is not literally the event-stream type,
the request negotiates Simplified with the always-strict flag off —
regardless of the query parameter and of any parameters or lists inside
the header values. -/
theorem mediaType_recognition_is_exact (r : HttpRequest)
    (hct : ¬ namesYangDataMediaType r.contentType)
    (hacc : ¬ namesYangDataMediaType r.accept)
    (hstream : r.accept ≠ TextStreamMimeType) :
    determineCompliance false r = Simplified := by
  unfold determineCompliance
  unfold namesYangDataMediaType at hct hacc
  push_neg at hct hacc
  by_cases hq : r.hasSimplifiedParam = true
  · simp [hq]
  · simp only [Bool.not_eq_true] at hq
    simp [hq, hct.1, hct.2.1, hct.2.2.1, hct.2.2.2,
      hacc.1, hacc.2.1, hacc.2.2.1, hacc.2.2.2, hstream]

/-- C9 witness: a YANG-data JSON media type carrying a charset parameter
is not recognized, so the request negotiates Simplified. -/
theorem mediaType_recognition_is_exact_witness :
    determineCompliance false
        { contentType := "application/yang-data+json; charset=utf-8"
          accept := "application/yang-data+json; charset=utf-8"
          hasSimplifiedParam := false } = Simplified :=
  mediaType_recognition_is_exact _ (by decide) (by decide) (by decide)

theorem splitColonSeg_append (m rest : List Char) (hm : m ≠ [])
    (hc : ':' ∉ m) (hs : '/' ∉ m) :
    splitColonSeg (m ++ ':' :: rest) = some (m, rest) := by
  induction m with
  | nil => exact absurd rfl hm
  | cons c cs ih =>
    rw [List.mem_cons, not_or] at hc hs
    have hc1 : ¬ c = ':' := fun h => hc.1 h.symm
    have hs1 : ¬ c = '/' := fun h => hs.1 h.symm
    cases cs with
    | nil => simp [splitColonSeg, hc1, hs1]
    | cons d ds =>
      have hrec := ih (by simp) hc.2 hs.2
      simp only [splitColonSeg, List.append_eq] at hrec
      simp [splitColonSeg, hc1, hs1, hrec]

theorem splitColonSeg_none (p : List Char)
    (h : ':' ∉ p.takeWhile (fun c => decide (c ≠ '/'))) :
    splitColonSeg p = none := by
  induction p with
  | nil => rfl
  | cons c cs ih =>
    by_cases hs : c = '/'
    · subst hs
      simp [splitColonSeg]
    · rw [List.takeWhile_cons_of_pos (by simpa using hs), List.mem_cons, not_or] at h
      have hc1 : ¬ c = ':' := fun hx => h.1 hx.symm
      simp [splitColonSeg, hc1, hs, ih h.2]

/-- C7 counterexample: a data path with no colon before the first slash is
rejected, but with the error wrapping the not-found sentinel ("no module
found in path"), which the taxonomy maps to 404 — not as a bad-address
error mapped to 400 as claimed. -/
theorem missing_module_maps_to_not_found :
    shiftBrowserHandler [String.toList "acme"] (String.toList "foo/bar") =
        Except.error ErrClass.notFound ∧
      ErrClass.notFound ≠ ErrClass.badAddress ∧
      errStatus ErrClass.notFound = 404 ∧ errStatus ErrClass.notFound ≠ 400 := by
  refine ⟨rfl, by decide, rfl, by decide⟩

/-- C7 (amended): for every valid `module:path` address whose module is
nonempty, colon-free and slash-free and has a registered browser, the
resolver recovers module and remaining path exactly; a path with no colon
before the first slash is rejected with the not-found class error ("no
module found in path"), which the taxonomy maps to status 404. -/
theorem resolver_recovers_module_and_rejects_missing
    (knownModules : List (List Char)) (m rest p : List Char)
    (hm : m ≠ []) (hc : ':' ∉ m) (hs : '/' ∉ m) (hk : m ∈ knownModules)
    (hnc : ':' ∉ p.takeWhile (fun c => decide (c ≠ '/'))) :
    shiftBrowserHandler knownModules (m ++ ':' :: rest) = Except.ok (m, rest) ∧
      (shiftBrowserHandler knownModules p = Except.error ErrClass.notFound ∧
        errStatus ErrClass.notFound = 404) := by
  refine ⟨?_, ?_, rfl⟩
  · unfold shiftBrowserHandler shiftModule
    rw [splitColonSeg_append m rest hm hc hs]
    simp [hm, hk]
  · unfold shiftBrowserHandler shiftModule
    rw [splitColonSeg_none p hnc]
    simp

/-- C7 amended witness: `acme:device/name` resolves to module `acme` with
remainder `device/name`, and `foo/bar` is rejected with the not-found
class error. -/
theorem resolver_recovers_module_witness :
    shiftBrowserHandler [String.toList "acme"]
        (String.toList "acme" ++ ':' :: String.toList "device/name") =
      Except.ok (String.toList "acme", String.toList "device/name") ∧
      (shiftBrowserHandler [String.toList "acme"] (String.toList "bar/baz") =
          Except.error ErrClass.notFound ∧
        errStatus ErrClass.notFound = 404) :=
  resolver_recovers_module_and_rejects_missing
    [String.toList "acme"] (String.toList "acme") (String.toList "device/name")
    (String.toList "bar/baz")
    (by decide) (by decide) (by decide) (by decide) (by decide)

theorem digitChar_mod_ten_isDigit (n : Nat) :
    (Nat.digitChar (n % 10)).isDigit = true := by
  have h : n % 10 < 10 := Nat.mod_lt _ (by norm_num)
  set k := n % 10 with hk
  interval_cases k <;> decide

theorem formatEventTime_rfc3339 (t : EventTime) :
    isRFC3339NumOffset (formatEventTime t) = true := by
  unfold isRFC3339NumOffset formatEventTime offsetChars
  by_cases h : t.offsetMinutes < 0 <;>
    simp [h, pad4, pad2, digitChar_mod_ten_isDigit, String.toList]

/-- C1 counterexample: with a first event whose payload fails to encode
and a second event that encodes and writes fine, the streaming loop
terminates on the reported encode error and the second event is never
written — the subscription does not survive a single bad event's
encoding. -/
theorem encode_failure_terminates_subscription :
    notifySelectLoop Strict
        [{ time := sampleTime, enc := none, writeOk := true },
         { time := sampleTime, enc := some "\x7b\x7d", writeOk := true }]
        { written := [], errCh := [] } =
      ({ written := [], errCh := [StreamErr.encodeFail] }, true) := by
  rfl

/-- C1 (amended): an encode failure is reported on the bounded error
channel and only that event's bytes are dropped from the connection, but
the reported error then terminates the subscription when the streaming
loop receives it, so events after the failure are not delivered. -/
theorem encode_failure_reported_event_dropped (c : ComplianceOptions)
    (st : StreamState) (n : StreamEvent) (rest : List StreamEvent)
    (henc : n.enc = none) (hch : st.errCh = []) :
    (notifyCallback c st n).written = st.written ∧
      (notifyCallback c st n).errCh = [StreamErr.encodeFail] ∧
      notifySelectLoop c (n :: rest) st =
        ({ st with errCh := [StreamErr.encodeFail] }, true) := by
  have hcb : notifyCallback c st n = { st with errCh := [StreamErr.encodeFail] } := by
    simp [notifyCallback, henc, sendErr, hch, errChCap]
  refine ⟨by rw [hcb], by rw [hcb], ?_⟩
  simp [notifySelectLoop, hcb]

/-- C1 amended witness: one failing event followed by one good one, from a
fresh subscription state. -/
theorem encode_failure_reported_event_dropped_witness :
    (notifyCallback Strict { written := [], errCh := [] }
          { time := sampleTime, enc := none, writeOk := true }).written = [] ∧
      (notifyCallback Strict { written := [], errCh := [] }
          { time := sampleTime, enc := none, writeOk := true }).errCh =
        [StreamErr.encodeFail] ∧
      notifySelectLoop Strict
          [{ time := sampleTime, enc := none, writeOk := true },
           { time := sampleTime, enc := some "\x7b\x7d", writeOk := true }]
          { written := [], errCh := [] } =
        ({ written := [], errCh := [StreamErr.encodeFail] }, true) :=
  encode_failure_reported_event_dropped Strict
    { written := [], errCh := [] }
    { time := sampleTime, enc := none, writeOk := true }
    [{ time := sampleTime, enc := some "\x7b\x7d", writeOk := true }]
    rfl rfl

/-- C3: a successfully encoded and written notification appends exactly
one record to the connection; with wrapping enabled that record is
`data: ` followed by the IETF notification object carrying the
RFC3339-numeric-offset event time and the encoded payload, terminated by
the blank line; with wrapping disabled it is the bare payload between
`data: ` and the blank line. -/
theorem notification_record_format (c : ComplianceOptions)
    (st : StreamState) (n : StreamEvent) (e : String)
    (henc : n.enc = some e) (hw : n.writeOk = true) :
    notifyCallback c st n =
        { st with written :=
            st.written ++ [sseRecord c (formatEventTime n.time) e] } ∧
      (c.disableNotificationWrapper = false →
        sseRecord c (formatEventTime n.time) e =
          "data: " ++ "\x7b\"ietf-restconf:notification\":\x7b\"eventTime\":\"" ++
            formatEventTime n.time ++ "\",\"event\":" ++ e ++ "\x7d\x7d" ++ "\n\n") ∧
      (c.disableNotificationWrapper = true →
        sseRecord c (formatEventTime n.time) e = "data: " ++ e ++ "\n\n") ∧
      isRFC3339NumOffset (formatEventTime n.time) = true := by
  refine ⟨?_, ?_, ?_, formatEventTime_rfc3339 n.time⟩
  · simp [notifyCallback, henc, hw]
  · intro hwrap
    simp [sseRecord, hwrap]
  · intro hwrap
    simp [sseRecord, hwrap]

/-- C3 witness: a concrete event at the sample timestamp, wrapped and
unwrapped. -/
theorem notification_record_format_witness :
    (notifyCallback Strict { written := [], errCh := [] }
          { time := sampleTime, enc := some "\x7b\"m:x\":1\x7d", writeOk := true } =
        { written := [sseRecord Strict (formatEventTime sampleTime) "\x7b\"m:x\":1\x7d"],
          errCh := [] } ∧
      (Strict.disableNotificationWrapper = false →
        sseRecord Strict (formatEventTime sampleTime) "\x7b\"m:x\":1\x7d" =
          "data: " ++ "\x7b\"ietf-restconf:notification\":\x7b\"eventTime\":\"" ++
            formatEventTime sampleTime ++ "\",\"event\":" ++ "\x7b\"m:x\":1\x7d" ++
            "\x7d\x7d" ++ "\n\n") ∧
      (Strict.disableNotificationWrapper = true →
        sseRecord Strict (formatEventTime sampleTime) "\x7b\"m:x\":1\x7d" =
          "data: " ++ "\x7b\"m:x\":1\x7d" ++ "\n\n") ∧
      isRFC3339NumOffset (formatEventTime sampleTime) = true) :=
  notification_record_format Strict { written := [], errCh := [] }
    { time := sampleTime, enc := some "\x7b\"m:x\":1\x7d", writeOk := true }
    "\x7b\"m:x\":1\x7d" rfl rfl

/-- C5: POST dispatched through the data endpoint to an action node: with
AllowRpcUnderData off and path depth at most 2 the request is rejected
with the 400 rpcs-belong-under-operations message and no tree operation
runs; at depth above 2, or with AllowRpcUnderData on, the action is
invoked normally. -/
theorem rpc_under_data_depth_rule (c : ComplianceOptions) (sel : Sel)
    (ct : String) (body : ReqBody) (moduleIdent : String)
    (hne : sel.lastErr = none) (hnil : sel.isNil = false)
    (hact : sel.metaIsAction = true) :
    (c.allowRpcUnderData = false → sel.pathLen ≤ 2 →
      serveBrowser c endpointData "POST" sel ct body moduleIdent =
        { httpErrors := [(400, rpcsUnderDataMsg)], ops := [],
          handled := none }) ∧
    (2 < sel.pathLen → sel.hasInput = false →
      serveBrowser c endpointData "POST" sel ct body moduleIdent =
        { httpErrors := [], ops := [TreeOp.invoke], handled := none }) ∧
    (c.allowRpcUnderData = true → sel.hasInput = false →
      serveBrowser c endpointData "POST" sel ct body moduleIdent =
        { httpErrors := [], ops := [TreeOp.invoke], handled := none }) := by
  refine ⟨?_, ?_, ?_⟩
  · intro hallow hlen
    have hd : decide (sel.pathLen > 2) = false := by
      simp
      omega
    simp [serveBrowser, hne, hnil, hact, hallow, hd,
      endpointData, endpointOperations]
  · intro hlen hinput
    have hd : decide (sel.pathLen > 2) = true := by simpa using hlen
    simp [serveBrowser, hne, hnil, hact, hd, methodSwitch, hinput,
      endpointData, endpointOperations]
  · intro hallow hinput
    simp [serveBrowser, hne, hnil, hact, hallow, methodSwitch, hinput,
      endpointData, endpointOperations]

/-- C5 witness: a top-level rpc at depth 2 is rejected under the data
endpoint; a nested action at depth 3 is invoked. -/
theorem rpc_under_data_depth_rule_witness :
    serveBrowser Strict endpointData "POST"
        { isNil := false, lastErr := none, metaIsAction := true,
          metaIsNotif := false, pathLen := 2, hasInput := false }
        "" emptyBody "m" =
      { httpErrors := [(400, rpcsUnderDataMsg)], ops := [],
        handled := none } ∧
    serveBrowser Strict endpointData "POST"
        { isNil := false, lastErr := none, metaIsAction := true,
          metaIsNotif := false, pathLen := 3, hasInput := false }
        "" emptyBody "m" =
      { httpErrors := [], ops := [TreeOp.invoke], handled := none } :=
  ⟨(rpc_under_data_depth_rule Strict
      { isNil := false, lastErr := none, metaIsAction := true,
        metaIsNotif := false, pathLen := 2, hasInput := false }
      "" emptyBody "m" rfl rfl rfl).1 rfl (by norm_num),
   (rpc_under_data_depth_rule Strict
      { isNil := false, lastErr := none, metaIsAction := true,
        metaIsNotif := false, pathLen := 3, hasInput := false }
      "" emptyBody "m" rfl rfl rfl).2.1 (by norm_num) rfl⟩

/-- C6 evidence: DELETE through the operations endpoint on a non-action
node writes the 400 operations-only-for-rpcs error, but the missing return
lets the method switch run anyway, so the tree delete is still
performed — contradicting "no tree operation is performed". -/
theorem operations_misuse_still_runs_delete :
    serveBrowser Strict endpointOperations "DELETE"
        { isNil := false, lastErr := none, metaIsAction := false,
          metaIsNotif := false, pathLen := 2, hasInput := false }
        "" emptyBody "m" =
      { httpErrors := [(400, opsOnlyMsg)], ops := [TreeOp.del],
        handled := none } := by
  rfl

/-- C4 evidence: with DisableActionWrapper set, sendActionOutput never
assigns the writer node, so InsertInto receives nil and no bare output is
emitted (first conjunct); with the wrapper enabled the JSON output
envelope and the bare XML writer behave as claimed, and readInput decodes
the IETF input envelope, reports a missing wrapper key by name, and reads
bare input when the wrapper is disabled. -/
theorem action_wrapper_disabled_loses_encoder :
    sendActionOutput Simplified PlainJsonMimeType "m" =
        { opening := "", enc := none, closing := "" } ∧
      sendActionOutput Strict YangDataJsonMimeType1 "m" =
        { opening := "\x7b\"m:output\":", enc := some Codec.json,
          closing := "\x7d" } ∧
      sendActionOutput Strict YangDataXmlMimeType1 "m" =
        { opening := "", enc := some Codec.xml, closing := "" } ∧
      readInput Strict YangDataJsonMimeType1
          { multipart := false,
            jsonDecoded := some [("m:input", Json.obj [("x", Json.num 1)])],
            xmlParsed := none } "m" =
        Except.ok (InputNode.values (Json.obj [("x", Json.num 1)])) ∧
      readInput Strict YangDataJsonMimeType1
          { multipart := false, jsonDecoded := some [("wrong", Json.obj [])],
            xmlParsed := none } "m" =
        Except.error (InErr.missingWrapper "m:input") ∧
      readInput Simplified YangDataJsonMimeType1
          { multipart := false, jsonDecoded := some [("wrong", Json.obj [])],
            xmlParsed := none } "m" =
        Except.ok InputNode.bareBody := by
  refine ⟨rfl, ?_, ?_, rfl, rfl, rfl⟩ <;> decide

/-- C10: with the action wrapper enabled, a non-multipart action POST
whose Content-Type is not exactly one of the four YANG-data media types
never decodes the body: the value map stays empty, the key stays empty,
and the result is the missing-wrapper error with the empty key, whatever
the body holds. -/
theorem unrecognized_content_type_empty_wrapper (c : ComplianceOptions)
    (ct : String) (body : ReqBody) (moduleIdent : String)
    (hw : c.disableActionWrapper = false) (hmp : body.multipart = false)
    (h1 : ct ≠ YangDataJsonMimeType1) (h2 : ct ≠ YangDataJsonMimeType2)
    (h3 : ct ≠ YangDataXmlMimeType1) (h4 : ct ≠ YangDataXmlMimeType2) :
    readInput c ct body moduleIdent =
      Except.error (InErr.missingWrapper "") := by
  simp [readInput, hmp, hw, h1, h2, h3, h4, lookupWrapper, List.lookup]

/-- C10 witness: a plain application/json POST carrying a well-formed IETF
input envelope still fails with the empty-key missing-wrapper error. -/
theorem unrecognized_content_type_empty_wrapper_witness :
    readInput Strict PlainJsonMimeType
        { multipart := false,
          jsonDecoded := some [("m:input", Json.obj [("x", Json.num 1)])],
          xmlParsed := none } "m" =
      Except.error (InErr.missingWrapper "") :=
  unrecognized_content_type_empty_wrapper Strict PlainJsonMimeType
    { multipart := false,
      jsonDecoded := some [("m:input", Json.obj [("x", Json.num 1)])],
      xmlParsed := none } "m" rfl rfl (by decide) (by decide) (by decide)
    (by decide)

end Restconf
